import Mathlib

/-!
Verification development for a chatbot test-automation harness.

The repository under study drives a browser against a third-party chat
widget.  We give a shallow embedding of its decision logic:

* `src/config/selectors.js` — selector tables and `SelectorManager`
  (`getSelector` with its tiered fallback chain);
* `src/utils/issue-analyzer.js` — the `IssueAnalyzer` classification and
  reporting logic;
* the `ChatbotHelper` page-object (widget open/closed probes, `sendMessage`);
* the k6 load script's weighted scenario selection.

A browser page is modelled as a visibility oracle `String → Bool`: the
argument is a CSS selector, the result is whether `isElementVisible`
reports a visible match for it (the JS helper catches every exception and
reports `false`, so a total Bool-valued oracle is faithful).
-/

/-- Lookup in the nested `HUBSPOT_SELECTORS` object of
`src/config/selectors.js`: `HUBSPOT_SELECTORS[category][element]`,
`none` when either key is absent.  Every entry of the source object is
reproduced, including the `fallback` sub-object. -/
def HUBSPOT_SELECTORS (category element : String) : Option String :=
  if category = "widget" then
    if element = "container" then some "[data-test-id=\"chat-widget\"]"
    else if element = "launcher" then some "[data-test-id=\"chat-launcher\"]"
    else if element = "iframe" then some "iframe[title*=\"chat\"]"
    else if element = "minimized" then some "[data-test-id=\"chat-widget-minimized\"]"
    else if element = "expanded" then some "[data-test-id=\"chat-widget-expanded\"]"
    else none
  else if category = "chat" then
    if element = "container" then some "[data-test-id=\"chat-container\"]"
    else if element = "header" then some "[data-test-id=\"chat-header\"]"
    else if element = "messagesArea" then some "[data-test-id=\"chat-messages\"]"
    else if element = "inputArea" then some "[data-test-id=\"chat-input-area\"]"
    else if element = "input" then some "[data-test-id=\"chat-input\"]"
    else if element = "sendButton" then some "[data-test-id=\"chat-send-button\"]"
    else if element = "closeButton" then some "[data-test-id=\"chat-close-button\"]"
    else if element = "minimizeButton" then some "[data-test-id=\"chat-minimize-button\"]"
    else none
  else if category = "messages" then
    if element = "message" then some "[data-test-id=\"chat-message\"]"
    else if element = "botMessage" then some "[data-test-id=\"bot-message\"]"
    else if element = "userMessage" then some "[data-test-id=\"user-message\"]"
    else if element = "timestamp" then some "[data-test-id=\"message-timestamp\"]"
    else if element = "avatar" then some "[data-test-id=\"message-avatar\"]"
    else if element = "content" then some "[data-test-id=\"message-content\"]"
    else if element = "typing" then some "[data-test-id=\"typing-indicator\"]"
    else none
  else if category = "interactive" then
    if element = "quickReplies" then some "[data-test-id=\"quick-replies\"]"
    else if element = "quickReply" then some "[data-test-id=\"quick-reply\"]"
    else if element = "buttons" then some "[data-test-id=\"chat-button\"]"
    else if element = "links" then some "[data-test-id=\"chat-link\"]"
    else if element = "forms" then some "[data-test-id=\"chat-form\"]"
    else if element = "formField" then some "[data-test-id=\"form-field\"]"
    else if element = "submitButton" then some "[data-test-id=\"form-submit\"]"
    else none
  else if category = "status" then
    if element = "online" then some "[data-test-id=\"agent-online\"]"
    else if element = "offline" then some "[data-test-id=\"agent-offline\"]"
    else if element = "typing" then some "[data-test-id=\"agent-typing\"]"
    else if element = "connecting" then some "[data-test-id=\"chat-connecting\"]"
    else if element = "connected" then some "[data-test-id=\"chat-connected\"]"
    else if element = "error" then some "[data-test-id=\"chat-error\"]"
    else none
  else if category = "fallback" then
    if element = "widget" then some "#hubspot-messages-iframe-container, .widget-container, [class*=\"chat-widget\"]"
    else if element = "iframe" then some "iframe[src*=\"hubspot\"], iframe[title*=\"chat\"], iframe[title*=\"Chat\"]"
    else if element = "input" then some "input[placeholder*=\"message\"], textarea[placeholder*=\"message\"], [contenteditable=\"true\"]"
    else if element = "sendButton" then some "button[type=\"submit\"], button[aria-label*=\"send\"], [data-testid*=\"send\"]"
    else if element = "messages" then some "[class*=\"message\"], [class*=\"chat-message\"], [role=\"log\"]"
    else if element = "botMessage" then some "[class*=\"bot\"], [class*=\"agent\"], [data-from=\"bot\"]"
    else if element = "userMessage" then some "[class*=\"user\"], [class*=\"visitor\"], [data-from=\"user\"]"
    else none
  else none

/-- The `intercom` sub-object of `ALTERNATIVE_SELECTORS`. -/
def intercomSelectors (element : String) : Option String :=
  if element = "widget" then some ".intercom-lightweight-app"
  else if element = "launcher" then some ".intercom-launcher"
  else if element = "iframe" then some "#intercom-frame"
  else none

/-- The `drift` sub-object of `ALTERNATIVE_SELECTORS`. -/
def driftSelectors (element : String) : Option String :=
  if element = "widget" then some "#drift-widget"
  else if element = "launcher" then some ".drift-open-chat"
  else if element = "iframe" then some "#drift-frame-chat"
  else none

/-- The `zendesk` sub-object of `ALTERNATIVE_SELECTORS`. -/
def zendeskSelectors (element : String) : Option String :=
  if element = "widget" then some "#webWidget"
  else if element = "launcher" then some ".zEWidget-launcher"
  else if element = "iframe" then some "iframe[title=\"Widget chat window\"]"
  else none

/-- The `generic` sub-object of `ALTERNATIVE_SELECTORS`. -/
def genericSelectors (element : String) : Option String :=
  if element = "widget" then some "[id*=\"chat\"], [class*=\"chat\"], [data-widget=\"chat\"]"
  else if element = "iframe" then some "iframe[src*=\"chat\"], iframe[title*=\"support\"]"
  else if element = "launcher" then some "[aria-label*=\"chat\"], [title*=\"chat\"], .chat-launcher"
  else none

/-- `ALTERNATIVE_SELECTORS` in the order `Object.entries` yields its keys
(insertion order of the object literal): intercom, drift, zendesk, generic. -/
def ALTERNATIVE_SELECTORS : List (String × (String → Option String)) :=
  [("intercom", intercomSelectors),
   ("drift", driftSelectors),
   ("zendesk", zendeskSelectors),
   ("generic", genericSelectors)]

/-- `Map.set` of a JS `Map`, on an insertion-ordered association list: an
existing key is updated in place, a new key is appended. -/
def mapSet (m : List (String × String)) (k v : String) : List (String × String) :=
  if m.any (fun p => p.1 = k) then
    m.map (fun p => if p.1 = k then (k, v) else p)
  else m ++ [(k, v)]

/-- The loop `for (const [framework, selectors] of Object.entries(this.fallbackSelectors))`
inside `SelectorManager.getSelector`, over the remaining entries: a framework
whose sub-object has the element and whose selector is visible returns that
selector and records it in `discoveredSelectors`; when the list is exhausted
the method throws `No working selector found for category.element`. -/
def tryAltsS (page : String → Bool) (category element : String)
    (disc : List (String × String)) :
    List (String × (String → Option String)) → Except String String × List (String × String)
  | [] => (Except.error ("No working selector found for " ++ category ++ "." ++ element), disc)
  | (_, selectors) :: rest =>
    match selectors element with
    | some altSelector =>
      if page altSelector then
        (Except.ok altSelector, mapSet disc (category ++ "." ++ element) altSelector)
      else tryAltsS page category element disc rest
    | none => tryAltsS page category element disc rest

/-- `SelectorManager.getSelector(page, category, element)`: try the primary
selector `HUBSPOT_SELECTORS[category]?.[element]`, then the CSS fallback
`HUBSPOT_SELECTORS.fallback[element]` (recording it in `discoveredSelectors`
on success), then the `ALTERNATIVE_SELECTORS` entries in order.  The result
pairs the returned selector (or the thrown error message) with the
`discoveredSelectors` map after the call. -/
def getSelectorS (page : String → Bool) (category element : String)
    (disc : List (String × String)) : Except String String × List (String × String) :=
  let afterPrimary :=
    match HUBSPOT_SELECTORS "fallback" element with
    | some fallbackSelector =>
      if page fallbackSelector then
        (Except.ok fallbackSelector, mapSet disc (category ++ "." ++ element) fallbackSelector)
      else tryAltsS page category element disc ALTERNATIVE_SELECTORS
    | none => tryAltsS page category element disc ALTERNATIVE_SELECTORS
  match HUBSPOT_SELECTORS category element with
  | some primarySelector =>
    if page primarySelector then (Except.ok primarySelector, disc) else afterPrimary
  | none => afterPrimary

/-- The selectors an invocation `getSelector(page, category, element)` probes,
in probe order: primary, CSS fallback, then the alternative frameworks. -/
def altCandidates (element : String) :
    List (String × (String → Option String)) → List String
  | [] => []
  | (_, selectors) :: rest => (selectors element).toList ++ altCandidates element rest

/-- All candidate selectors for `(category, element)` in the order
`getSelector` probes them. -/
def selectorCandidates (category element : String) : List String :=
  (HUBSPOT_SELECTORS category element).toList
    ++ (HUBSPOT_SELECTORS "fallback" element).toList
    ++ altCandidates element ALTERNATIVE_SELECTORS

/-!
IssueAnalyzer (`src/utils/issue-analyzer.js`).

Machine numbers: the analyzer only does small exact arithmetic
(`Math.round(baseScore * multiplier)` on table values), so we model JS
numbers by rationals; every product that arises is farther than any
double rounding error from a half-integer except `7 * 0.5 = 3.5`, which
is exact in binary, so `Math.round` on these values agrees with
rounding half towards positive infinity over the rationals.
-/

/-- The issue object passed to `IssueAnalyzer.addIssue`.  `severity` is
`Option String` because the callers may omit it (`none` = JS `undefined`). -/
structure Issue where
  category : String
  severity : Option String
  description : String
  evidence : String
  impact : String
  recommendation : String
deriving Repr, DecidableEq

/-- One entry of the `this.categories` table built in the
`IssueAnalyzer` constructor. -/
structure CategoryInfo where
  description : String
  businessImpact : String
  severity : String
deriving Repr, DecidableEq

/-- The `this.categories` lookup table of the `IssueAnalyzer` constructor,
keyed by category name. -/
def categories (c : String) : Option CategoryInfo :=
  if c = "ui_rendering" then
    some ⟨"Visual and rendering issues with chatbot interface",
          "High - Users cannot see or interact with chatbot", "critical"⟩
  else if c = "core_functionality" then
    some ⟨"Basic chatbot operations not working",
          "Critical - Chatbot completely non-functional", "critical"⟩
  else if c = "performance_consistency" then
    some ⟨"Inconsistent response times or performance",
          "Medium - Poor user experience, potential abandonment", "moderate"⟩
  else if c = "response_quality" then
    some ⟨"Bot responses are irrelevant or unhelpful",
          "High - Users get poor support, may not convert", "moderate"⟩
  else if c = "conversation_flow" then
    some ⟨"Issues with multi-turn conversations",
          "Medium - Users cannot have complex interactions", "moderate"⟩
  else if c = "input_validation" then
    some ⟨"Problems handling various input types",
          "Low to Medium - Edge cases may cause issues", "minor"⟩
  else if c = "accessibility" then
    some ⟨"Accessibility compliance issues",
          "Medium - Excludes users with disabilities", "moderate"⟩
  else if c = "security" then
    some ⟨"Potential security vulnerabilities",
          "Critical - Risk of data breach or exploitation", "critical"⟩
  else if c = "error_handling" then
    some ⟨"Poor error handling and recovery",
          "Medium - Users may lose functionality during issues", "moderate"⟩
  else if c = "integration" then
    some ⟨"Issues with backend systems or third-party integrations",
          "High - May affect lead capture or data flow", "high"⟩
  else if c = "mobile_compatibility" then
    some ⟨"Issues specific to mobile devices",
          "High - Large portion of users on mobile", "high"⟩
  else if c = "browser_compatibility" then
    some ⟨"Issues specific to certain browsers",
          "Medium - Affects subset of users", "moderate"⟩
  else none

/-- `Object.keys(this.categories)` in insertion order, as used by
`generateSummary` for the category breakdown. -/
def categoriesKeys : List String :=
  ["ui_rendering", "core_functionality", "performance_consistency",
   "response_quality", "conversation_flow", "input_validation",
   "accessibility", "security", "error_handling", "integration",
   "mobile_compatibility", "browser_compatibility"]

/-- JS `a || b` on an optional string `a`: `b` when `a` is `undefined`
or the (falsy) empty string. -/
def jsOrS (a : Option String) (b : String) : String :=
  match a with
  | some s => if s = "" then b else s
  | none => b

/-- JS `Math.round` on the exact rational value: round half towards
positive infinity. -/
def jsRound (q : ℚ) : ℤ := ⌊q + 1/2⌋

/-- The `severityScores` table inside `calculateBusinessPriority`. -/
def severityScores (s : String) : Option ℚ :=
  if s = "critical" then some 10
  else if s = "high" then some 7
  else if s = "moderate" then some 4
  else if s = "minor" then some 2
  else none

/-- The `categoryMultipliers` table inside `calculateBusinessPriority`. -/
def categoryMultipliers (c : String) : Option ℚ :=
  if c = "core_functionality" then some 1
  else if c = "security" then some 1
  else if c = "ui_rendering" then some (9/10)
  else if c = "integration" then some (8/10)
  else if c = "mobile_compatibility" then some (8/10)
  else if c = "response_quality" then some (7/10)
  else if c = "performance_consistency" then some (6/10)
  else if c = "accessibility" then some (5/10)
  else if c = "input_validation" then some (4/10)
  else if c = "browser_compatibility" then some (4/10)
  else if c = "conversation_flow" then some (3/10)
  else if c = "error_handling" then some (3/10)
  else none

/-- `IssueAnalyzer.calculateBusinessPriority(issue)`:
`Math.round((severityScores[issue.severity] || 4) * (categoryMultipliers[issue.category] || 0.5))`.
No table value is `0`, so `||` on a found entry is the identity and is
modelled by `Option.getD`. -/
def calculateBusinessPriority (issue : Issue) : ℤ :=
  let baseScore : ℚ := (issue.severity.bind severityScores).getD 4
  let multiplier : ℚ := (categoryMultipliers issue.category).getD (1/2)
  jsRound (baseScore * multiplier)

/-- The `timeEstimates` table inside `estimateFixTime`. -/
def timeEstimates (c : String) : Option String :=
  if c = "ui_rendering" then some "2-4 hours"
  else if c = "core_functionality" then some "1-3 days"
  else if c = "performance_consistency" then some "4-8 hours"
  else if c = "response_quality" then some "1-2 days"
  else if c = "conversation_flow" then some "1-2 days"
  else if c = "input_validation" then some "2-6 hours"
  else if c = "accessibility" then some "4-12 hours"
  else if c = "security" then some "1-5 days"
  else if c = "error_handling" then some "4-8 hours"
  else if c = "integration" then some "1-3 days"
  else if c = "mobile_compatibility" then some "4-8 hours"
  else if c = "browser_compatibility" then some "2-6 hours"
  else none

/-- `IssueAnalyzer.estimateFixTime(issue)`:
`timeEstimates[issue.category] || '4-8 hours'` (every table entry is a
non-empty string, so `||` is `Option.getD`). -/
def estimateFixTime (issue : Issue) : String :=
  (timeEstimates issue.category).getD "4-8 hours"

/-- The `affectedPercentages` table inside `estimateAffectedUsers`. -/
def affectedPercentages (c : String) : Option String :=
  if c = "core_functionality" then some "100%"
  else if c = "ui_rendering" then some "100%"
  else if c = "security" then some "100%"
  else if c = "mobile_compatibility" then some "60-70%"
  else if c = "response_quality" then some "80-90%"
  else if c = "performance_consistency" then some "50-80%"
  else if c = "integration" then some "70-90%"
  else if c = "accessibility" then some "5-15%"
  else if c = "browser_compatibility" then some "10-30%"
  else if c = "conversation_flow" then some "30-50%"
  else if c = "input_validation" then some "5-20%"
  else if c = "error_handling" then some "20-40%"
  else none

/-- `IssueAnalyzer.estimateAffectedUsers(issue)`:
`affectedPercentages[issue.category] || '10-30%'`. -/
def estimateAffectedUsers (issue : Issue) : String :=
  (affectedPercentages issue.category).getD "10-30%"

/-- Capitalize the first character of a word, modelling one match of the
JS regex replace `.replace(/\b\w/g, l => l.toUpperCase())`. -/
def capFirst (w : String) : String :=
  match w.data with
  | [] => ""
  | c :: cs => String.mk (c.toUpper :: cs)

/-- `issue.category.replace(/_/g, ' ').replace(/\b\w/g, l => l.toUpperCase())`
for the space-separated word shape every category name has. -/
def capWords (s : String) : String :=
  String.intercalate " " (((s.replace "_" " ").splitOn " ").map capFirst)

/-- `IssueAnalyzer.generateIssueTitle(issue)`: severity marker, title-cased
category name, and the description truncated to 60 characters. -/
def generateIssueTitle (issue : Issue) : String :=
  let categoryName := capWords issue.category
  let sevMark :=
    if issue.severity = some "critical" then "🚨"
    else if issue.severity = some "high" then "⚠️"
    else if issue.severity = some "moderate" then "⚡"
    else "ℹ️"
  sevMark ++ " " ++ categoryName ++ ": " ++ (issue.description.take 60)
    ++ (if issue.description.length > 60 then "..." else "")

/-- The enriched issue record `addIssue` builds and appends to `this.issues`. -/
structure EnrichedIssue where
  id : String
  timestamp : String
  category : String
  severity : String
  title : String
  description : String
  evidence : String
  impact : String
  recommendation : String
  businessPriority : ℤ
  estimatedFixTime : String
  affectedUserPercentage : String
deriving Repr, DecidableEq

/-- `IssueAnalyzer.addIssue(issue)`.  The impure inputs — the generated
`issueId` (`generateIssueId`, from `Date.now` and `Math.random`) and the ISO
`timestamp` — are passed in as parameters; the analyzer state is its
`this.issues` list.  Returns the JS return value (the id) and the new list. -/
def addIssue (issues : List EnrichedIssue) (issue : Issue)
    (issueId timestamp : String) : String × List EnrichedIssue :=
  let enrichedIssue : EnrichedIssue :=
    { id := issueId
      timestamp := timestamp
      category := issue.category
      severity := jsOrS issue.severity (jsOrS ((categories issue.category).map CategoryInfo.severity) "moderate")
      title := generateIssueTitle issue
      description := issue.description
      evidence := issue.evidence
      impact := issue.impact
      recommendation := issue.recommendation
      businessPriority := calculateBusinessPriority issue
      estimatedFixTime := estimateFixTime issue
      affectedUserPercentage := estimateAffectedUsers issue }
  (issueId, issues ++ [enrichedIssue])

/-- `IssueAnalyzer.getIssuesBySeverity(severity)`. -/
def getIssuesBySeverity (issues : List EnrichedIssue) (severity : String) :
    List EnrichedIssue :=
  issues.filter (fun issue => issue.severity = severity)

/-- `IssueAnalyzer.getIssuesByCategory(category)`. -/
def getIssuesByCategory (issues : List EnrichedIssue) (category : String) :
    List EnrichedIssue :=
  issues.filter (fun issue => issue.category = category)

/-- The object `generateSummary` would return. -/
structure Summary where
  totalIssues : ℕ
  criticalCount : ℕ
  highCount : ℕ
  moderateCount : ℕ
  minorCount : ℕ
  categoryBreakdown : List (String × ℕ)
  averageBusinessPriority : ℚ
  criticalIssueCount : ℕ
  needsImmediateAttention : ℕ
  overallRiskLevel : String
deriving Repr, DecidableEq

/-- The comparison ladder in `calculateOverallRiskLevel` applied to an
already-computed summary. -/
def riskFromSummary (s : Summary) : String :=
  if s.criticalCount > 0 then "CRITICAL"
  else if s.highCount > 2 ∨ s.totalIssues > 10 then "HIGH"
  else if s.highCount > 0 ∨ s.totalIssues > 5 then "MEDIUM"
  else "LOW"

mutual

/-- `IssueAnalyzer.generateSummary()`, with an explicit fuel bound on call
depth (`none` models a JS stack overflow: the fuel ran out before the call
returned).  The source method computes its statistics and then calls
`this.calculateOverallRiskLevel()` for the `overallRiskLevel` field. -/
def generateSummaryF : ℕ → List EnrichedIssue → Option Summary
  | 0, _ => none
  | fuel + 1, issues =>
    match calculateOverallRiskLevelF fuel issues with
    | none => none
    | some risk =>
      let averagePriority : ℚ :=
        if issues.length > 0 then
          (issues.map (fun i => (i.businessPriority : ℚ))).sum / issues.length
        else 0
      some
        { totalIssues := issues.length
          criticalCount := (getIssuesBySeverity issues "critical").length
          highCount := (getIssuesBySeverity issues "high").length
          moderateCount := (getIssuesBySeverity issues "moderate").length
          minorCount := (getIssuesBySeverity issues "minor").length
          categoryBreakdown :=
            categoriesKeys.map (fun c => (c, (getIssuesByCategory issues c).length))
          averageBusinessPriority := (jsRound (averagePriority * 10) : ℚ) / 10
          criticalIssueCount := (getIssuesBySeverity issues "critical").length
          needsImmediateAttention :=
            (getIssuesBySeverity issues "critical").length
              + (getIssuesBySeverity issues "high").length
          overallRiskLevel := risk }

/-- `IssueAnalyzer.calculateOverallRiskLevel()`, same fuel discipline.  The
source method begins with `const summary = this.generateSummary();`. -/
def calculateOverallRiskLevelF : ℕ → List EnrichedIssue → Option String
  | 0, _ => none
  | fuel + 1, issues =>
    match generateSummaryF fuel issues with
    | none => none
    | some summary => some (riskFromSummary summary)

end

/-!
ChatbotHelper page-object (the unnamed helper module, required as
`../utils/chatbot-helper`).  The page is the same visibility oracle
`String → Bool` as for the selector manager.
-/

/-- The `openIndicators` selector list of `ChatbotHelper.isChatbotOpen`. -/
def openIndicators : List String :=
  ["[data-test-id*=\"chat-container\"]",
   "[data-test-id*=\"chat-input\"]",
   "[class*=\"chat-open\"]",
   "[class*=\"chat-expanded\"]",
   "textarea[placeholder*=\"message\"]",
   "input[placeholder*=\"message\"]",
   "[contenteditable=\"true\"]"]

/-- `ChatbotHelper.isChatbotOpen()`: true exactly when one of the
`openIndicators` selectors is visible (a selector whose probe throws is
caught and skipped, i.e. reads as not visible). -/
def isChatbotOpen (page : String → Bool) : Bool :=
  openIndicators.any page

/-- `ChatbotHelper.isChatbotClosed()`: `!(await this.isChatbotOpen())`. -/
def isChatbotClosed (page : String → Bool) : Bool :=
  !isChatbotOpen page

/-- One entry of `this.messageHistory`. -/
structure HistMsg where
  type : String
  content : String
  timestamp : ℕ
deriving Repr, DecidableEq

/-- The mutable fields of a `ChatbotHelper` instance touched by
`sendMessage`. -/
structure HelperState where
  lastMessageTimestamp : ℕ
  messageHistory : List HistMsg
deriving Repr, DecidableEq

/-- A page interaction performed by `sendMessage` (`clear`/`fill` on the
input field, `click` on the send button, `press` of a key). -/
inductive PageAction where
  | clear (selector : String)
  | fill (selector : String) (text : String)
  | click (selector : String)
  | press (selector : String) (key : String)
deriving Repr, DecidableEq

/-- The `inputSelectors` list inside `ChatbotHelper.sendMessage`. -/
def sendInputSelectors : List String :=
  ["[data-test-id*=\"chat-input\"]",
   "textarea[placeholder*=\"message\"]",
   "input[placeholder*=\"message\"]",
   "[contenteditable=\"true\"]",
   "textarea",
   "input[type=\"text\"]"]

/-- The `sendSelectors` list inside `ChatbotHelper.sendMessage`. -/
def sendButtonSelectors : List String :=
  ["[data-test-id*=\"send\"]",
   "[aria-label*=\"send\"]",
   "[title*=\"send\"]",
   "button[type=\"submit\"]",
   ".send-button",
   "[class*=\"send\"]"]

/-- The `for (const selector of ...)` search loops of `sendMessage`: first
selector the page reports visible, `none` when every probe fails. -/
def findVisible (page : String → Bool) : List String → Option String
  | [] => none
  | s :: rest => if page s then some s else findVisible page rest

/-- The JS return value of `sendMessage`: a send duration in ms, the
literal `false` for a rejected message, or a thrown error. -/
inductive SendResult where
  | sent (ms : ℕ)
  | notSent
  | failed (message : String)
deriving Repr, DecidableEq

/-- `ChatbotHelper.sendMessage(message)`.  The clock is abstracted by the
two `Date.now()` readings `startTime` and `now` (the later readings while
sending are all taken as `now`).  The result carries the JS return value,
the helper state after the call, and the trace of page interactions
performed, in order. -/
def sendMessage (page : String → Bool) (message : String) (st : HelperState)
    (startTime now : ℕ) : SendResult × HelperState × List PageAction :=
  if message = "" ∨ message.trim = "" then
    (SendResult.notSent, st, [])
  else
    match findVisible page sendInputSelectors with
    | none => (SendResult.failed "Failed to send message: Could not find input field", st, [])
    | some inputField =>
      let typeActs := [PageAction.clear inputField, PageAction.fill inputField message]
      let st' : HelperState :=
        { lastMessageTimestamp := now
          messageHistory := st.messageHistory ++ [⟨"user", message, now⟩] }
      match findVisible page sendButtonSelectors with
      | some sendButton =>
        (SendResult.sent (now - startTime), st', typeActs ++ [PageAction.click sendButton])
      | none =>
        (SendResult.sent (now - startTime), st', typeActs ++ [PageAction.press inputField "Enter"])

/-!
k6 load script (`tests/k6/load-test.js`): `TEST_SCENARIOS` and the
weighted pick `getRandomScenario`.  The two `Math.random()` draws are the
parameters `r1` (scenario draw) and `r2` (message draw), each in `[0, 1)`.
-/

/-- One entry of `TEST_SCENARIOS`. -/
structure Scen where
  category : String
  messages : List String
  weight : ℚ
deriving Repr, DecidableEq

/-- The `TEST_SCENARIOS` table of the k6 script. -/
def TEST_SCENARIOS : List Scen :=
  [⟨"greeting", ["Hello", "Hi there", "Good morning", "Hey"], 30⟩,
   ⟨"pricing_inquiry",
    ["What are your pricing plans?", "How much does it cost?",
     "I want to know about pricing", "Can you tell me the price?"], 25⟩,
   ⟨"product_info",
    ["Tell me about your products", "What features do you offer?",
     "I need information about your services", "What can your platform do?"], 20⟩,
   ⟨"support",
    ["I need help", "I have a problem", "Can you assist me?", "I need support"], 15⟩,
   ⟨"contact",
    ["How can I contact sales?", "I want to speak to someone",
     "Can I talk to a human?", "Connect me with an agent"], 10⟩]

/-- The `for (const scenario of TEST_SCENARIOS)` loop: subtract the weight
from the running draw, return the scenario once the draw drops to `<= 0`,
`none` when the list is exhausted (which would reach the trailing
fallback `return`). -/
def selectScen (random : ℚ) : List Scen → Option Scen
  | [] => none
  | s :: rest =>
    if random - s.weight ≤ 0 then some s else selectScen (random - s.weight) rest

/-- `messages[Math.floor(Math.random() * messages.length)]` with draw `r2`
(an out-of-range index, impossible for `r2` in `[0,1)` on a non-empty
list, is modelled by the empty string standing for JS `undefined`). -/
def pickMessage (r2 : ℚ) (messages : List String) : String :=
  messages.getD (⌊r2 * messages.length⌋).toNat ""

/-- `getRandomScenario()` of the k6 script: weighted pick with draw `r1`,
message pick with draw `r2`, and the trailing
`return { category: 'greeting', message: 'Hello' }` fallback.  Returns
`(category, message)`. -/
def getRandomScen (r1 r2 : ℚ) : String × String :=
  let totalWeight := (TEST_SCENARIOS.map Scen.weight).sum
  match selectScen (r1 * totalWeight) TEST_SCENARIOS with
  | some scen => (scen.category, pickMessage r2 scen.messages)
  | none => ("greeting", "Hello")

/-!
Theorems.
-/

/-- Helper: the alternative-framework loop returns exactly the first
visible selector among its candidate list, and throws otherwise. -/
theorem tryAltsS_fst (page : String → Bool) (category element : String)
    (disc : List (String × String)) :
    ∀ alts, (tryAltsS page category element disc alts).1 =
      match (altCandidates element alts).find? page with
      | some sel => Except.ok sel
      | none => Except.error ("No working selector found for " ++ category ++ "." ++ element) := by
  intro alts
  induction alts with
  | nil => simp [tryAltsS, altCandidates]
  | cons head rest ih =>
    obtain ⟨fw, tbl⟩ := head
    cases h : tbl element with
    | none => simpa [tryAltsS, altCandidates, h] using ih
    | some sel =>
      cases hp : page sel with
      | true => simp [tryAltsS, altCandidates, h, hp, List.find?]
      | false => simpa [tryAltsS, altCandidates, h, hp, List.find?] using ih

/-- C1: `SelectorManager.getSelector` resolves by trying, in order, the
primary `HUBSPOT_SELECTORS[category][element]` selector, the generic CSS
fallback `HUBSPOT_SELECTORS.fallback[element]`, the framework selectors of
`ALTERNATIVE_SELECTORS` (intercom, drift, zendesk), and the generic
heuristics — `selectorCandidates` lists the candidates in exactly that
order — and returns the first candidate the page reports visible, so a
later-tier selector is never returned while an earlier-tier one is
visible. -/
theorem getSelector_resolution_order (page : String → Bool) (category element : String)
    (disc : List (String × String)) :
    (getSelectorS page category element disc).1 =
      match (selectorCandidates category element).find? page with
      | some sel => Except.ok sel
      | none => Except.error ("No working selector found for " ++ category ++ "." ++ element) := by
  unfold getSelectorS selectorCandidates
  cases hpri : HUBSPOT_SELECTORS category element with
  | some primarySelector =>
    cases hp : page primarySelector with
    | true => simp [hp, List.find?]
    | false =>
      cases hfb : HUBSPOT_SELECTORS "fallback" element with
      | some fallbackSelector =>
        cases hf : page fallbackSelector with
        | true => simp [hp, hf, List.find?]
        | false => simp [hp, hf, List.find?, tryAltsS_fst page category element disc]
      | none => simp [hp, List.find?, tryAltsS_fst page category element disc]
  | none =>
    cases hfb : HUBSPOT_SELECTORS "fallback" element with
    | some fallbackSelector =>
      cases hf : page fallbackSelector with
      | true => simp [hf, List.find?]
      | false => simp [hf, List.find?, tryAltsS_fst page category element disc]
    | none => simp [tryAltsS_fst page category element disc]

/-- Helper: when no alternative candidate is visible the framework loop
throws and leaves the discovered-selector map untouched. -/
theorem tryAltsS_none (page : String → Bool) (category element : String)
    (disc : List (String × String)) :
    ∀ alts, (∀ s ∈ altCandidates element alts, page s = false) →
      tryAltsS page category element disc alts =
        (Except.error ("No working selector found for " ++ category ++ "." ++ element), disc) := by
  intro alts
  induction alts with
  | nil => intro _; simp [tryAltsS]
  | cons head rest ih =>
    intro h
    obtain ⟨fw, tbl⟩ := head
    cases htbl : tbl element with
    | none =>
      refine Eq.trans (by simp [tryAltsS, htbl]) (ih ?_)
      intro s hs
      exact h s (by simp [altCandidates, htbl, hs])
    | some sel =>
      have hsel : page sel = false := h sel (by simp [altCandidates, htbl])
      refine Eq.trans (by simp [tryAltsS, htbl, hsel]) (ih ?_)
      intro s hs
      exact h s (by simp [altCandidates, htbl, hs])

/-- C4: when no selector of any tier is visible, `getSelector` throws an
error naming the category and element — there is no further recovery — and
the `discoveredSelectors` map is returned unchanged. -/
theorem getSelector_all_invisible_error (page : String → Bool) (category element : String)
    (disc : List (String × String))
    (h : ∀ s ∈ selectorCandidates category element, page s = false) :
    getSelectorS page category element disc =
      (Except.error ("No working selector found for " ++ category ++ "." ++ element), disc) := by
  have halt : ∀ s ∈ altCandidates element ALTERNATIVE_SELECTORS, page s = false := by
    intro s hs
    exact h s (by simp [selectorCandidates, hs])
  unfold getSelectorS
  cases hpri : HUBSPOT_SELECTORS category element with
  | some primarySelector =>
    have hp : page primarySelector = false := h primarySelector (by simp [selectorCandidates, hpri])
    cases hfb : HUBSPOT_SELECTORS "fallback" element with
    | some fallbackSelector =>
      have hf : page fallbackSelector = false :=
        h fallbackSelector (by simp [selectorCandidates, hfb])
      simp [hp, hf, tryAltsS_none page category element disc ALTERNATIVE_SELECTORS halt]
    | none => simp [hp, tryAltsS_none page category element disc ALTERNATIVE_SELECTORS halt]
  | none =>
    cases hfb : HUBSPOT_SELECTORS "fallback" element with
    | some fallbackSelector =>
      have hf : page fallbackSelector = false :=
        h fallbackSelector (by simp [selectorCandidates, hfb])
      simp [hf, tryAltsS_none page category element disc ALTERNATIVE_SELECTORS halt]
    | none => simp [tryAltsS_none page category element disc ALTERNATIVE_SELECTORS halt]

/-- Witness for C4: on a page where nothing is visible,
`getSelector(page, 'widget', 'container')` throws the naming error and
leaves the (empty) discovered map unchanged. -/
theorem getSelector_all_invisible_error_witness :
    getSelectorS (fun _ => false) "widget" "container" [] =
      (Except.error "No working selector found for widget.container", []) :=
  getSelector_all_invisible_error (fun _ => false) "widget" "container" []
    (fun _ _ => rfl)

/-- C2: every issue recorded by `addIssue` stores
`businessPriority = round(severityScore * categoryMultiplier)` — the
severity score looked up in `severityScores` with default 4, the
multiplier looked up in `categoryMultipliers` with default 0.5 — and
carries the caller's recommendation text through unchanged. -/
theorem addIssue_businessPriority_formula (issues : List EnrichedIssue)
    (issue : Issue) (issueId timestamp : String) :
    ∃ r : EnrichedIssue,
      (addIssue issues issue issueId timestamp).2 = issues ++ [r] ∧
      r.businessPriority =
        jsRound ((issue.severity.bind severityScores).getD 4
          * (categoryMultipliers issue.category).getD (1/2)) ∧
      r.recommendation = issue.recommendation :=
  ⟨_, rfl, rfl, rfl⟩

/-- C5: `estimateFixTime` and `estimateAffectedUsers` are pure static
lookups — the result depends only on `issue.category`, and a category
outside the table yields the fixed defaults `4-8 hours` and `10-30%`. -/
theorem estimate_lookups_pure :
    (∀ i j : Issue, i.category = j.category →
      estimateFixTime i = estimateFixTime j ∧
      estimateAffectedUsers i = estimateAffectedUsers j) ∧
    (∀ i : Issue, timeEstimates i.category = none → estimateFixTime i = "4-8 hours") ∧
    (∀ i : Issue, affectedPercentages i.category = none →
      estimateAffectedUsers i = "10-30%") := by
  refine ⟨fun i j h => ?_, fun i h => ?_, fun i h => ?_⟩
  · constructor <;> simp [estimateFixTime, estimateAffectedUsers, h]
  · simp [estimateFixTime, h]
  · simp [estimateAffectedUsers, h]

/-- Witness for C5: two issues of category `security` with different other
fields get the same estimates, and an unknown category gets the defaults. -/
theorem estimate_lookups_pure_witness :
    (estimateFixTime ⟨"security", some "critical", "a", "b", "c", "d"⟩ =
       estimateFixTime ⟨"security", none, "w", "x", "y", "z"⟩ ∧
     estimateAffectedUsers ⟨"security", some "critical", "a", "b", "c", "d"⟩ =
       estimateAffectedUsers ⟨"security", none, "w", "x", "y", "z"⟩) ∧
    estimateFixTime ⟨"brand_new", none, "", "", "", ""⟩ = "4-8 hours" ∧
    estimateAffectedUsers ⟨"brand_new", none, "", "", "", ""⟩ = "10-30%" :=
  ⟨estimate_lookups_pure.1 _ _ rfl,
   estimate_lookups_pure.2.1 ⟨"brand_new", none, "", "", "", ""⟩ rfl,
   estimate_lookups_pure.2.2 ⟨"brand_new", none, "", "", "", ""⟩ rfl⟩

/-- C6: the record `addIssue` appends is tagged with the issue's category,
a severity (the given one when present and non-empty, else the category
table's severity, else `moderate`), the business-impact string, an
estimated fix time and an estimated affected-user percentage, and
`addIssue` returns the new record's id. -/
theorem addIssue_record_fields (issues : List EnrichedIssue) (issue : Issue)
    (issueId timestamp : String) :
    ∃ r : EnrichedIssue,
      addIssue issues issue issueId timestamp = (issueId, issues ++ [r]) ∧
      r.id = issueId ∧
      r.category = issue.category ∧
      r.impact = issue.impact ∧
      r.estimatedFixTime = estimateFixTime issue ∧
      r.affectedUserPercentage = estimateAffectedUsers issue ∧
      (∀ s, issue.severity = some s → s ≠ "" → r.severity = s) ∧
      (∀ info, issue.severity = none → categories issue.category = some info →
        info.severity ≠ "" → r.severity = info.severity) ∧
      (issue.severity = none → categories issue.category = none →
        r.severity = "moderate") := by
  refine ⟨_, rfl, rfl, rfl, rfl, rfl, rfl, ?_, ?_, ?_⟩
  · intro s hs hne
    simp [addIssue, jsOrS, hs, hne]
  · intro info hs hcat hne
    simp [addIssue, jsOrS, hs, hcat, hne]
  · intro hs hcat
    simp [addIssue, jsOrS, hs, hcat]

/-- Witness for C6: an `integration` issue reported with severity `high`
is stored with that severity, the table's fix-time estimate, and its id
is returned. -/
theorem addIssue_record_fields_witness :
    ∃ r : EnrichedIssue,
      (addIssue [] ⟨"integration", some "high", "d", "e", "imp", "rec"⟩ "ID-1" "TS").2 = [r] ∧
      r.severity = "high" ∧ r.estimatedFixTime = "1-3 days" := by
  obtain ⟨r, hpair, _, _, _, hfix, _, hsev, _, _⟩ :=
    addIssue_record_fields [] ⟨"integration", some "high", "d", "e", "imp", "rec"⟩ "ID-1" "TS"
  refine ⟨r, ?_, hsev "high" rfl (by decide), ?_⟩
  · rw [hpair]; simp
  · rw [hfix]; rfl

/-- C3: `generateSummary` never returns.  The method fills its
`overallRiskLevel` field by calling `calculateOverallRiskLevel`, whose
first statement calls `generateSummary` back, with no base case: for every
recursion budget and every recorded issue list the call exhausts the
budget (a JS stack overflow) instead of producing a summary, so
`exportSummary`/`exportIssues` cannot render a report either. -/
theorem generateSummary_diverges :
    ∀ fuel issues, generateSummaryF fuel issues = none := by
  have key : ∀ fuel issues,
      generateSummaryF fuel issues = none ∧
      calculateOverallRiskLevelF fuel issues = none := by
    intro fuel
    induction fuel with
    | zero => intro issues; exact ⟨rfl, rfl⟩
    | succ n ih =>
      intro issues
      constructor
      · simp [generateSummaryF, (ih issues).2]
      · simp [calculateOverallRiskLevelF, (ih issues).1]
  intro fuel issues
  exact (key fuel issues).1

/-- C7: the widget state the helper observes is one boolean —
`isChatbotClosed` is exactly the negation of `isChatbotOpen`, the two
never both hold, and one always holds. -/
theorem isChatbotClosed_neg_isChatbotOpen (page : String → Bool) :
    isChatbotClosed page = !isChatbotOpen page ∧
    (isChatbotOpen page = true ∨ isChatbotClosed page = true) ∧
    ¬(isChatbotOpen page = true ∧ isChatbotClosed page = true) := by
  refine ⟨rfl, ?_, ?_⟩ <;> cases h : isChatbotOpen page <;> simp [isChatbotClosed, h]

/-- C9: `sendMessage` on an empty or whitespace-only message returns
`false` immediately — no page interaction is performed, nothing is
appended to `messageHistory`, and `lastMessageTimestamp` is untouched. -/
theorem sendMessage_empty_noop (page : String → Bool) (message : String)
    (st : HelperState) (startTime now : ℕ)
    (h : message = "" ∨ message.trim = "") :
    sendMessage page message st startTime now = (SendResult.notSent, st, []) := by
  unfold sendMessage
  rw [if_pos h]

/-- Witness for C9: an empty message on a page where every selector is
visible is rejected with no state change and no actions. -/
theorem sendMessage_empty_noop_witness :
    sendMessage (fun _ => true) "" ⟨0, []⟩ 0 5 =
      (SendResult.notSent, ⟨0, []⟩, []) :=
  sendMessage_empty_noop (fun _ => true) "" ⟨0, []⟩ 0 5 (Or.inl rfl)

/-- Helper: every entry of the `categoryMultipliers` table lies in
`[0.3, 1]`. -/
theorem categoryMultiplier_mem (c : String) (q : ℚ)
    (h : categoryMultipliers c = some q) : 3/10 ≤ q ∧ q ≤ 1 := by
  unfold categoryMultipliers at h
  by_cases h1 : c = "core_functionality"
  · rw [if_pos h1] at h
    injection h with h; subst h; constructor <;> norm_num
  rw [if_neg h1] at h
  by_cases h2 : c = "security"
  · rw [if_pos h2] at h
    injection h with h; subst h; constructor <;> norm_num
  rw [if_neg h2] at h
  by_cases h3 : c = "ui_rendering"
  · rw [if_pos h3] at h
    injection h with h; subst h; constructor <;> norm_num
  rw [if_neg h3] at h
  by_cases h4 : c = "integration"
  · rw [if_pos h4] at h
    injection h with h; subst h; constructor <;> norm_num
  rw [if_neg h4] at h
  by_cases h5 : c = "mobile_compatibility"
  · rw [if_pos h5] at h
    injection h with h; subst h; constructor <;> norm_num
  rw [if_neg h5] at h
  by_cases h6 : c = "response_quality"
  · rw [if_pos h6] at h
    injection h with h; subst h; constructor <;> norm_num
  rw [if_neg h6] at h
  by_cases h7 : c = "performance_consistency"
  · rw [if_pos h7] at h
    injection h with h; subst h; constructor <;> norm_num
  rw [if_neg h7] at h
  by_cases h8 : c = "accessibility"
  · rw [if_pos h8] at h
    injection h with h; subst h; constructor <;> norm_num
  rw [if_neg h8] at h
  by_cases h9 : c = "input_validation"
  · rw [if_pos h9] at h
    injection h with h; subst h; constructor <;> norm_num
  rw [if_neg h9] at h
  by_cases h10 : c = "browser_compatibility"
  · rw [if_pos h10] at h
    injection h with h; subst h; constructor <;> norm_num
  rw [if_neg h10] at h
  by_cases h11 : c = "conversation_flow"
  · rw [if_pos h11] at h
    injection h with h; subst h; constructor <;> norm_num
  rw [if_neg h11] at h
  by_cases h12 : c = "error_handling"
  · rw [if_pos h12] at h
    injection h with h; subst h; constructor <;> norm_num
  rw [if_neg h12] at h
  exact Option.noConfusion h

/-- Helper: every category multiplier (the table entry, or the 0.5
default) lies in `[0.3, 1]`. -/
theorem categoryMultiplier_bounds (c : String) :
    3/10 ≤ (categoryMultipliers c).getD (1/2) ∧
    (categoryMultipliers c).getD (1/2) ≤ 1 := by
  cases hm : categoryMultipliers c with
  | none => norm_num
  | some q => simpa using categoryMultiplier_mem c q hm

/-- C8: for the four documented severities and any category the computed
business priority lies in `[1, 10]` — in particular never 0 — and a
critical issue in `core_functionality` or `security` attains 10. -/
theorem businessPriority_range (issue : Issue)
    (h : issue.severity = some "critical" ∨ issue.severity = some "high" ∨
         issue.severity = some "moderate" ∨ issue.severity = some "minor") :
    (1 ≤ calculateBusinessPriority issue ∧ calculateBusinessPriority issue ≤ 10) ∧
    (issue.severity = some "critical" →
      (issue.category = "core_functionality" ∨ issue.category = "security") →
      calculateBusinessPriority issue = 10) := by
  have hm := categoryMultiplier_bounds issue.category
  set m : ℚ := (categoryMultipliers issue.category).getD (1/2) with hmdef
  have hb : (issue.severity.bind severityScores).getD 4 = 10 ∨
      (issue.severity.bind severityScores).getD 4 = 7 ∨
      (issue.severity.bind severityScores).getD 4 = 4 ∨
      (issue.severity.bind severityScores).getD 4 = 2 := by
    rcases h with h | h | h | h <;> simp [h, severityScores]
  constructor
  · set b : ℚ := (issue.severity.bind severityScores).getD 4 with hbdef
    have hb2 : 2 ≤ b ∧ b ≤ 10 := by rcases hb with h | h | h | h <;> rw [h] <;> norm_num
    have hlow : (3/5 : ℚ) ≤ b * m := by nlinarith [hb2.1, hb2.2, hm.1, hm.2]
    have hhigh : b * m ≤ 10 := by nlinarith [hb2.1, hb2.2, hm.1, hm.2]
    constructor
    · show (1 : ℤ) ≤ jsRound (b * m)
      apply Int.le_floor.mpr
      push_cast
      linarith
    · show jsRound (b * m) ≤ (10 : ℤ)
      have : jsRound (b * m) < 11 := by
        apply Int.floor_lt.mpr
        push_cast
        linarith
      omega
  · intro hc hcat
    rcases hcat with hcat | hcat <;>
      simp [calculateBusinessPriority, jsRound, hc, hcat, severityScores,
        categoryMultipliers] <;>
      norm_num

/-- Witness for C8: a critical `security` issue scores exactly 10, within
the `[1, 10]` band. -/
theorem businessPriority_range_witness :
    (1 ≤ calculateBusinessPriority ⟨"security", some "critical", "d", "e", "i", "r"⟩ ∧
     calculateBusinessPriority ⟨"security", some "critical", "d", "e", "i", "r"⟩ ≤ 10) ∧
    calculateBusinessPriority ⟨"security", some "critical", "d", "e", "i", "r"⟩ = 10 := by
  have h := businessPriority_range ⟨"security", some "critical", "d", "e", "i", "r"⟩
    (Or.inl rfl)
  exact ⟨h.1, h.2 rfl (Or.inr rfl)⟩

/-- Helper: the weighted-selection loop returns some scenario of the list
whenever the draw does not exceed the list's total weight. -/
theorem selectScen_mem :
    ∀ (l : List Scen) (random : ℚ), l ≠ [] →
      random ≤ (l.map Scen.weight).sum → ∃ s ∈ l, selectScen random l = some s := by
  intro l
  induction l with
  | nil => intro r hne _; exact absurd rfl hne
  | cons a rest ih =>
    intro r _ hsum
    by_cases hle : r - a.weight ≤ 0
    · exact ⟨a, by simp, by simp [selectScen, hle]⟩
    · have hsum' : r - a.weight ≤ (rest.map Scen.weight).sum := by
        simp only [List.map_cons, List.sum_cons] at hsum
        linarith
      have hrest : rest ≠ [] := by
        intro he
        rw [he] at hsum'
        simp at hsum'
        exact hle (by linarith)
      obtain ⟨s, hmem, hsel⟩ := ih (r - a.weight) hrest hsum'
      exact ⟨s, by simp [hmem], by simp [selectScen, hle, hsel]⟩

/-- Helper: for a draw in `[0, 1)` the picked message is an element of a
non-empty message list. -/
theorem pickMessage_mem (r2 : ℚ) (messages : List String)
    (h0 : 0 ≤ r2) (h1 : r2 < 1) (hne : messages ≠ []) :
    pickMessage r2 messages ∈ messages := by
  have hlen : 0 < messages.length := List.length_pos.mpr hne
  have hcast : (0 : ℚ) < (messages.length : ℚ) := by exact_mod_cast hlen
  have hfl_lt : ⌊r2 * (messages.length : ℚ)⌋ < (messages.length : ℤ) := by
    apply Int.floor_lt.mpr
    push_cast
    nlinarith
  have hfl_nonneg : 0 ≤ ⌊r2 * (messages.length : ℚ)⌋ :=
    Int.floor_nonneg.mpr (by positivity)
  have hidx : (⌊r2 * (messages.length : ℚ)⌋).toNat < messages.length := by omega
  unfold pickMessage
  rw [List.getD_eq_getElem _ _ hidx]
  exact List.getElem_mem hidx

/-- C10: `getRandomScenario` always selects a scenario from the weighted
`TEST_SCENARIOS` table inside the loop — the draw `r1 * totalWeight` is
strictly below the total weight 100, so the loop hits a scenario before
the list runs out and the trailing greeting fallback is unreachable — and
the returned message is one of that scenario's listed messages. -/
theorem getRandomScen_in_table (r1 r2 : ℚ)
    (_h0 : 0 ≤ r1) (h1 : r1 < 1) (h2 : 0 ≤ r2) (h3 : r2 < 1) :
    ∃ s ∈ TEST_SCENARIOS,
      selectScen (r1 * (TEST_SCENARIOS.map Scen.weight).sum) TEST_SCENARIOS = some s ∧
      getRandomScen r1 r2 = (s.category, pickMessage r2 s.messages) ∧
      pickMessage r2 s.messages ∈ s.messages := by
  have htot : (TEST_SCENARIOS.map Scen.weight).sum = 100 := by
    norm_num [TEST_SCENARIOS]
  have hle : r1 * (TEST_SCENARIOS.map Scen.weight).sum ≤ (TEST_SCENARIOS.map Scen.weight).sum := by
    rw [htot]; nlinarith
  obtain ⟨s, hmem, hsel⟩ :=
    selectScen_mem TEST_SCENARIOS (r1 * (TEST_SCENARIOS.map Scen.weight).sum)
      (by simp [TEST_SCENARIOS]) hle
  have hne : s.messages ≠ [] := by
    fin_cases hmem <;> simp
  exact ⟨s, hmem, hsel, by simp [getRandomScen, hsel],
    pickMessage_mem r2 s.messages h2 h3 hne⟩

/-- Witness for C10: with both draws at one half, the loop selects the
`pricing_inquiry` scenario and the message is one of its four. -/
theorem getRandomScen_in_table_witness :
    ∃ s ∈ TEST_SCENARIOS,
      selectScen ((1/2 : ℚ) * (TEST_SCENARIOS.map Scen.weight).sum) TEST_SCENARIOS = some s ∧
      getRandomScen (1/2) (1/2) = (s.category, pickMessage (1/2) s.messages) ∧
      pickMessage (1/2) s.messages ∈ s.messages :=
  getRandomScen_in_table (1/2) (1/2) (by norm_num) (by norm_num) (by norm_num) (by norm_num)
